import Mathlib

/-!
Formal model of the interview session lifecycle implemented in
src/backend/main.py (Excel Voice Interview API, version 3.0.0).

The Python service keeps each session as a dictionary with keys
session_id, candidate_name, started_at, finished_at, current_question,
questions, evaluation and status.  The endpoints modelled here are
start_interview (POST /interview/start), submit_answer
(POST /interview/submit-answer), evaluate_interview (POST /interview/evaluate)
and get_interview_status (GET status endpoint).

External effects are explicit parameters of the model:
the transcription gateway result of submit_answer is an Option String
(none models a transcription failure, which the code surfaces as an HTTP
500 before any session mutation); the scoring gateway outcome during
evaluation is a GatewayResult value; timestamps are opaque strings
supplied by the caller.  The Firestore mirror only duplicates the
in-memory write and its failures are logged and ignored by the code, so
the model tracks a single session value.  Session lookup failure (HTTP
404) happens before any logic modelled here and is omitted: the
operations take the session value directly.
-/

namespace ExcelInterview

/-- One entry of the QUESTIONS bank in src/backend/main.py (lines 105-136). -/
structure Question where
  id : Int
  question : String
  category : String
  difficulty : String
deriving Repr, DecidableEq

/-- The fixed question bank QUESTIONS (src/backend/main.py lines 105-136),
with the exact texts of the source.  It is a module-level constant that no
endpoint ever writes to. -/
def QUESTIONS : List Question :=
  [ { id := 1,
      question := "How would you use a VLOOKUP in Excel? Please provide a practical example with sample data.",
      category := "Lookup Functions",
      difficulty := "Intermediate" },
    { id := 2,
      question := "Explain the difference between Absolute and Relative cell references. When would you use each?",
      category := "Cell References",
      difficulty := "Basic" },
    { id := 3,
      question := "What is a Pivot Table and when would you use it? Walk me through creating one.",
      category := "Data Analysis",
      difficulty := "Intermediate" },
    { id := 4,
      question := "How do you handle duplicate values in Excel? What are the different methods available?",
      category := "Data Management",
      difficulty := "Basic" },
    { id := 5,
      question := "Write a formula to calculate the average of cells A1 through A10, excluding blank cells and zeros.",
      category := "Formulas",
      difficulty := "Intermediate" } ]

/-- The three status strings the code assigns to session["status"]:
"in_progress" at creation, "awaiting_feedback" once all questions are
answered, "completed" after a successful evaluation. -/
inductive Status where
  | in_progress
  | awaiting_feedback
  | completed
deriving Repr, DecidableEq

/-- One qa_pair dictionary appended to session["questions"] by submit_answer
(src/backend/main.py lines 409-417). -/
structure QA where
  question_id : Int
  question_text : String
  category : String
  difficulty : String
  answer_transcript : String
  asked_at : String
  answered_at : String
deriving Repr, DecidableEq

/-- One entry of the detailed_feedback array the evaluation prompt requests.
The code never inspects these entries (they are opaque dictionaries passed
through to the response), so only the fields of the requested schema that
the surrounding discussion needs are modelled. -/
structure FeedbackItem where
  question_id : Int
  score : Rat
  feedback : String
deriving Repr, DecidableEq

/-- The JSON object produced by json.loads on the scoring gateway text,
at the granularity the code interacts with it: each of the six keys the
code reads (src/backend/main.py lines 548-555) is present or absent.
Reading an absent key raises KeyError inside the try block. -/
structure EvalJson where
  summary : Option String
  overall_score : Option Rat
  strengths : Option (List String)
  weaknesses : Option (List String)
  recommendation : Option String
  detailed_feedback : Option (List FeedbackItem)
deriving Repr, DecidableEq

/-- A non-null value json.loads can produce, which evaluate_interview
stores verbatim in session["evaluation"]: either a JSON object, at the
six-key granularity the code reads it, or any other JSON value (array,
string, number or boolean), which the code can never successfully
subscript with a string key.  The parsed JSON null is Python None, the
same value session["evaluation"] holds before evaluation, so it is
modelled by the surrounding Option being none rather than by a
constructor here. -/
inductive StoredEval where
  | nonObject
  | obj (e : EvalJson)
deriving Repr, DecidableEq

/-- A session dictionary as created by start_interview
(src/backend/main.py lines 311-320).  evaluation holds exactly what the
code last assigned to session["evaluation"]: None (none) at creation, and
the verbatim json.loads result after the commit step of
evaluate_interview. -/
structure Session where
  session_id : String
  candidate_name : String
  started_at : String
  finished_at : Option String
  current_question : Nat
  questions : List QA
  evaluation : Option StoredEval
  status : Status
deriving Repr, DecidableEq

/-- The distinct error responses raised by the modelled endpoints.  Each
constructor corresponds to one raise site with its detail string:
notInProgress = 400 "Interview is not in progress",
invalidQuestionId = 400 "Invalid question ID",
questionIdMismatch = 400 "Question ID mismatch" (the SequenceMismatchError
of the design), transcriptionFailed = 500 "Speech transcription failed",
notReadyForEvaluation = 400 "Interview not ready for evaluation" (the
InvalidStateError of the design), noAnswersToEvaluate = 400 "No answers to
evaluate" (the EmptyInterviewError of the design), evaluationFailed = 500
"Evaluation failed" (the EvaluationFailedError of the design). -/
inductive ApiError where
  | notInProgress
  | invalidQuestionId
  | questionIdMismatch
  | transcriptionFailed
  | notReadyForEvaluation
  | noAnswersToEvaluate
  | evaluationFailed
deriving Repr, DecidableEq

/-- Outcome of the scoring gateway interaction inside evaluate_interview:
requestFailed covers an HTTP error, a response without candidates or a
response whose parts carry no text (all raised before json.loads);
unparseable covers text that json.loads rejects; parsed carries the value
json.loads produced, exactly as the code stores it — parsed none is the
JSON text null (Python None), parsed (some v) any other JSON value. -/
inductive GatewayResult where
  | requestFailed
  | unparseable
  | parsed (v : Option StoredEval)
deriving Repr, DecidableEq

/-- The next_question / first_question dictionary returned to the client. -/
structure NextQuestion where
  id : Int
  question : String
  number : Nat
  audio_url : String
deriving Repr, DecidableEq

/-- Response model of POST /interview/start. -/
structure StartInterviewResponse where
  session_id : String
  introduction_audio_url : String
  first_question : NextQuestion
  total_questions : Nat
deriving Repr, DecidableEq

/-- Response model of POST /interview/submit-answer. -/
structure SubmitAnswerResponse where
  next_question : Option NextQuestion
  finished : Bool
  progress : String
deriving Repr, DecidableEq

/-- Response model of POST /interview/evaluate. -/
structure EvaluationResponse where
  summary : String
  overall_score : Rat
  strengths : List String
  weaknesses : List String
  recommendation : String
  detailed_feedback : List FeedbackItem
deriving Repr, DecidableEq

/-- Response of the read-only status endpoint. -/
structure StatusResponse where
  candidate_name : String
  status : Status
  current_question : Nat
  total_questions : Nat
  questions_answered : Nat
  started_at : String
  finished_at : Option String
deriving Repr, DecidableEq

/-- The progress string built at src/backend/main.py line 443 from the
pre-increment cursor value. -/
def progressString (idx : Nat) : String :=
  "Question " ++ toString (idx + 1) ++ " of " ++ toString QUESTIONS.length

/-- The next_question dictionary built at src/backend/main.py lines 435-441
from the post-increment cursor value idx. -/
def nextQuestionInfo (sid : String) (idx : Nat) : NextQuestion :=
  let q := QUESTIONS.getD idx ⟨0, "", "", ""⟩
  { id := q.id,
    question := q.question,
    number := idx + 1,
    audio_url := "/audio/" ++ sid ++ "/question/" ++ toString (idx + 1) }

/-- start_interview (src/backend/main.py lines 305-345).  Creates the
session dictionary, stores it, and returns the response with the first
question of the bank.  The candidate_name of the request is stored
verbatim; the only validation pydantic performs on StartInterviewRequest
is that candidate_name is a string, so any string (the empty string
included) is accepted.  Speech synthesis of the introduction happens after
the session is stored and does not affect the session value. -/
def start_interview (session_id candidate_name now : String) :
    Session × StartInterviewResponse :=
  ({ session_id := session_id,
     candidate_name := candidate_name,
     started_at := now,
     finished_at := none,
     current_question := 0,
     questions := [],
     evaluation := none,
     status := Status.in_progress },
   { session_id := session_id,
     introduction_audio_url := "/audio/" ++ session_id ++ "/intro",
     first_question :=
       { id := (QUESTIONS.getD 0 ⟨0, "", "", ""⟩).id,
         question := (QUESTIONS.getD 0 ⟨0, "", "", ""⟩).question,
         number := 1,
         audio_url := "/audio/" ++ session_id ++ "/question/1" },
     total_questions := QUESTIONS.length })

/-- The qa_pair dictionary of src/backend/main.py lines 409-417, built from
the question at the current cursor (in every reachable call the cursor is
in bounds, because the code only reaches this point when
question_id = current_question + 1 and 1 <= question_id <= len(QUESTIONS)). -/
def mkQA (s : Session) (t now : String) : QA :=
  let q := QUESTIONS.getD s.current_question ⟨0, "", "", ""⟩
  { question_id := q.id,
    question_text := q.question,
    category := q.category,
    difficulty := q.difficulty,
    answer_transcript := t,
    asked_at := s.started_at,
    answered_at := now }

/-- submit_answer (src/backend/main.py lines 371-449).  The checks run in
source order: status, question id range, question id against the cursor;
then the audio is transcribed (transcript = none models a transcription
failure, raised before any mutation); then the qa_pair is appended, the
cursor incremented, and the status moved to awaiting_feedback when the
cursor reaches the bank length.  Returns the updated session together with
the response or the error raised. -/
def submit_answer (s : Session) (question_id : Int) (transcript : Option String)
    (now : String) : Session × Except ApiError SubmitAnswerResponse :=
  if s.status ≠ Status.in_progress then
    (s, Except.error ApiError.notInProgress)
  else if question_id < 1 ∨ question_id > (QUESTIONS.length : Int) then
    (s, Except.error ApiError.invalidQuestionId)
  else if question_id ≠ (s.current_question : Int) + 1 then
    (s, Except.error ApiError.questionIdMismatch)
  else
    match transcript with
    | none => (s, Except.error ApiError.transcriptionFailed)
    | some t =>
      if QUESTIONS.length ≤ s.current_question + 1 then
        ({ s with questions := s.questions ++ [mkQA s t now],
                  current_question := s.current_question + 1,
                  status := Status.awaiting_feedback },
         Except.ok { next_question := none,
                     finished := true,
                     progress := progressString s.current_question })
      else
        ({ s with questions := s.questions ++ [mkQA s t now],
                  current_question := s.current_question + 1 },
         Except.ok { next_question := some (nextQuestionInfo s.session_id (s.current_question + 1)),
                     finished := false,
                     progress := progressString s.current_question })

/-- evaluate_interview (src/backend/main.py lines 451-558).  The status
check and the empty-answers check run, in that order, before the gateway
is contacted.  On a parsed gateway value the code first stores the value
verbatim in session["evaluation"], sets status to "completed", stamps
finished_at and saves the session (lines 539-546), and only then builds
the response by subscripting the value with the six keys (lines 548-555):
a missing key on an object raises KeyError, and a non-object value (the
parsed JSON null included, which is stored as None) raises TypeError;
either way the surrounding except converts the failure to the HTTP 500
"Evaluation failed" response, after the session was already mutated. -/
def evaluate_interview (s : Session) (now : String) (gw : GatewayResult) :
    Session × Except ApiError EvaluationResponse :=
  if s.status ≠ Status.awaiting_feedback then
    (s, Except.error ApiError.notReadyForEvaluation)
  else if s.questions = [] then
    (s, Except.error ApiError.noAnswersToEvaluate)
  else
    match gw with
    | GatewayResult.requestFailed => (s, Except.error ApiError.evaluationFailed)
    | GatewayResult.unparseable => (s, Except.error ApiError.evaluationFailed)
    | GatewayResult.parsed v =>
      let s1 : Session :=
        { s with evaluation := v,
                 status := Status.completed,
                 finished_at := some now }
      match v with
      | some (StoredEval.obj e) =>
        match e.summary, e.overall_score, e.strengths, e.weaknesses,
              e.recommendation, e.detailed_feedback with
        | some su, some os, some st, some wk, some rc, some df =>
          (s1, Except.ok { summary := su,
                           overall_score := os,
                           strengths := st,
                           weaknesses := wk,
                           recommendation := rc,
                           detailed_feedback := df })
        | _, _, _, _, _, _ => (s1, Except.error ApiError.evaluationFailed)
      | _ => (s1, Except.error ApiError.evaluationFailed)

/-- get_interview_status (src/backend/main.py lines 560-575): a pure read
of the session, mutating nothing. -/
def get_interview_status (s : Session) : StatusResponse :=
  { candidate_name := s.candidate_name,
    status := s.status,
    current_question := s.current_question,
    total_questions := QUESTIONS.length,
    questions_answered := s.questions.length,
    started_at := s.started_at,
    finished_at := s.finished_at }

/-- Whether an endpoint call succeeded. -/
def exceptOk {α : Type} : Except ApiError α → Bool
  | Except.ok _ => true
  | Except.error _ => false

/-- The six keys the code reads from a parsed gateway JSON object are all
present. -/
def completeEval (e : EvalJson) : Bool :=
  e.summary.isSome && e.overall_score.isSome && e.strengths.isSome &&
  e.weaknesses.isSome && e.recommendation.isSome && e.detailed_feedback.isSome

/-- The parsed gateway value is an object carrying all six keys the code
reads: exactly the condition under which the response construction of
evaluate_interview succeeds. -/
def completeParsed : Option StoredEval → Bool
  | some (StoredEval.obj e) => completeEval e
  | _ => false

/-- Sessions that the service itself can produce: created by
start_interview and transformed by any sequence of submit_answer and
evaluate_interview calls with arbitrary inputs and gateway outcomes (the
read-only status and transcript endpoints do not mutate the session). -/
inductive Reachable : Session → Prop where
  | start (sid name now : String) : Reachable (start_interview sid name now).1
  | submit {s : Session} (qid : Int) (tr : Option String) (now : String) :
      Reachable s → Reachable (submit_answer s qid tr now).1
  | evaluate {s : Session} (now : String) (gw : GatewayResult) :
      Reachable s → Reachable (evaluate_interview s now gw).1

lemma QUESTIONS_length : QUESTIONS.length = 5 := rfl

lemma submit_not_in_progress {s : Session} (h : s.status ≠ Status.in_progress)
    (qid : Int) (tr : Option String) (now : String) :
    submit_answer s qid tr now = (s, Except.error ApiError.notInProgress) := by
  simp [submit_answer, h]

lemma submit_out_of_range {s : Session} (h : s.status = Status.in_progress)
    {qid : Int} (hr : qid < 1 ∨ qid > (QUESTIONS.length : Int))
    (tr : Option String) (now : String) :
    submit_answer s qid tr now = (s, Except.error ApiError.invalidQuestionId) := by
  simp [submit_answer, h, hr]

lemma submit_mismatch {s : Session} (h : s.status = Status.in_progress)
    {qid : Int} (hr : ¬ (qid < 1 ∨ qid > (QUESTIONS.length : Int)))
    (hm : qid ≠ (s.current_question : Int) + 1)
    (tr : Option String) (now : String) :
    submit_answer s qid tr now = (s, Except.error ApiError.questionIdMismatch) := by
  simp [submit_answer, h, hr, hm]

lemma submit_no_transcript {s : Session} (h : s.status = Status.in_progress)
    {qid : Int} (hr : ¬ (qid < 1 ∨ qid > (QUESTIONS.length : Int)))
    (hm : qid = (s.current_question : Int) + 1) (now : String) :
    submit_answer s qid none now = (s, Except.error ApiError.transcriptionFailed) := by
  simp [submit_answer, h, hr, hm]
  omega

lemma submit_success_last {s : Session} (h : s.status = Status.in_progress)
    {qid : Int} (hr : ¬ (qid < 1 ∨ qid > (QUESTIONS.length : Int)))
    (hm : qid = (s.current_question : Int) + 1) (t now : String)
    (hlen : QUESTIONS.length ≤ s.current_question + 1) :
    submit_answer s qid (some t) now =
      ({ s with questions := s.questions ++ [mkQA s t now],
                current_question := s.current_question + 1,
                status := Status.awaiting_feedback },
       Except.ok { next_question := none,
                   finished := true,
                   progress := progressString s.current_question }) := by
  simp [submit_answer, h, hr, hm, hlen]
  omega

lemma submit_success_mid {s : Session} (h : s.status = Status.in_progress)
    {qid : Int} (hr : ¬ (qid < 1 ∨ qid > (QUESTIONS.length : Int)))
    (hm : qid = (s.current_question : Int) + 1) (t now : String)
    (hlen : ¬ QUESTIONS.length ≤ s.current_question + 1) :
    submit_answer s qid (some t) now =
      ({ s with questions := s.questions ++ [mkQA s t now],
                current_question := s.current_question + 1 },
       Except.ok { next_question := some (nextQuestionInfo s.session_id (s.current_question + 1)),
                   finished := false,
                   progress := progressString s.current_question }) := by
  simp [submit_answer, h, hr, hm, hlen]
  omega

lemma evaluate_not_awaiting {s : Session} (h : s.status ≠ Status.awaiting_feedback)
    (now : String) (gw : GatewayResult) :
    evaluate_interview s now gw = (s, Except.error ApiError.notReadyForEvaluation) := by
  simp [evaluate_interview, h]

lemma evaluate_no_answers {s : Session} (h : s.status = Status.awaiting_feedback)
    (he : s.questions = []) (now : String) (gw : GatewayResult) :
    evaluate_interview s now gw = (s, Except.error ApiError.noAnswersToEvaluate) := by
  simp [evaluate_interview, h, he]

lemma evaluate_requestFailed {s : Session} (h : s.status = Status.awaiting_feedback)
    (he : s.questions ≠ []) (now : String) :
    evaluate_interview s now GatewayResult.requestFailed
      = (s, Except.error ApiError.evaluationFailed) := by
  simp [evaluate_interview, h, he]

lemma evaluate_unparseable {s : Session} (h : s.status = Status.awaiting_feedback)
    (he : s.questions ≠ []) (now : String) :
    evaluate_interview s now GatewayResult.unparseable
      = (s, Except.error ApiError.evaluationFailed) := by
  simp [evaluate_interview, h, he]

lemma evaluate_parsed_fst {s : Session} (h : s.status = Status.awaiting_feedback)
    (he : s.questions ≠ []) (now : String) (v : Option StoredEval) :
    (evaluate_interview s now (GatewayResult.parsed v)).1
      = { s with evaluation := v,
                 status := Status.completed,
                 finished_at := some now } := by
  cases v with
  | none => simp [evaluate_interview, h, he]
  | some sv =>
    cases sv with
    | nonObject => simp [evaluate_interview, h, he]
    | obj e =>
      rcases e with ⟨su, os, st, wk, rc, df⟩
      cases su <;> cases os <;> cases st <;> cases wk <;> cases rc <;> cases df <;>
        simp [evaluate_interview, h, he]

lemma evaluate_parsed_complete {s : Session} (h : s.status = Status.awaiting_feedback)
    (he : s.questions ≠ []) (now : String)
    (su : String) (os : Rat) (st wk : List String) (rc : String)
    (df : List FeedbackItem) :
    (evaluate_interview s now (GatewayResult.parsed (some (StoredEval.obj
        ⟨some su, some os, some st, some wk, some rc, some df⟩)))).2
      = Except.ok { summary := su,
                    overall_score := os,
                    strengths := st,
                    weaknesses := wk,
                    recommendation := rc,
                    detailed_feedback := df } := by
  simp [evaluate_interview, h, he]

lemma evaluate_parsed_incomplete {s : Session} (h : s.status = Status.awaiting_feedback)
    (he : s.questions ≠ []) (now : String) {v : Option StoredEval}
    (hc : completeParsed v = false) :
    (evaluate_interview s now (GatewayResult.parsed v)).2
      = Except.error ApiError.evaluationFailed := by
  cases v with
  | none => simp [evaluate_interview, h, he]
  | some sv =>
    cases sv with
    | nonObject => simp [evaluate_interview, h, he]
    | obj e =>
      rcases e with ⟨su, os, st, wk, rc, df⟩
      cases su <;> cases os <;> cases st <;> cases wk <;> cases rc <;> cases df <;>
        simp_all [evaluate_interview, completeParsed, completeEval, h, he]

/-- The state invariant maintained by the service: the recorded answers
track the cursor one-for-one, the cursor never passes the bank length, an
in_progress session still has questions left, and a non-null stored
evaluation only ever appears on a completed session.  The converse of the
last conjunct is false of the code: a gateway response whose text is the
JSON null is committed as a None evaluation on a completed session. -/
def Inv (s : Session) : Prop :=
  s.questions.length = s.current_question ∧
  s.current_question ≤ QUESTIONS.length ∧
  (s.status = Status.in_progress → s.current_question < QUESTIONS.length) ∧
  (s.evaluation ≠ none → s.status = Status.completed)

lemma Inv_start (sid name now : String) : Inv (start_interview sid name now).1 := by
  refine ⟨rfl, by simp [start_interview], ?_, by simp [start_interview]⟩
  intro _
  simp [start_interview, QUESTIONS_length]

lemma Inv_submit {s : Session} (hs : Inv s) (qid : Int) (tr : Option String)
    (now : String) : Inv (submit_answer s qid tr now).1 := by
  obtain ⟨h1, h2, h3, h4⟩ := hs
  by_cases hp : s.status = Status.in_progress
  · by_cases hr : qid < 1 ∨ qid > (QUESTIONS.length : Int)
    · rw [submit_out_of_range hp hr tr now]; exact ⟨h1, h2, h3, h4⟩
    · by_cases hm : qid = (s.current_question : Int) + 1
      · cases tr with
        | none => rw [submit_no_transcript hp hr hm now]; exact ⟨h1, h2, h3, h4⟩
        | some t =>
          have hb : s.current_question + 1 ≤ QUESTIONS.length := by omega
          by_cases hlen : QUESTIONS.length ≤ s.current_question + 1
          · rw [submit_success_last hp hr hm t now hlen]
            refine ⟨by simp [h1], hb, ?_, ?_⟩
            · intro hcontra; simp at hcontra
            · intro hne
              have hco := h4 hne
              rw [hp] at hco
              cases hco
          · rw [submit_success_mid hp hr hm t now hlen]
            refine ⟨by simp [h1], hb, ?_, ?_⟩
            · intro _
              show s.current_question + 1 < QUESTIONS.length
              omega
            · show s.evaluation ≠ none → s.status = Status.completed
              exact h4
      · rw [submit_mismatch hp hr hm tr now]; exact ⟨h1, h2, h3, h4⟩
  · rw [submit_not_in_progress hp qid tr now]; exact ⟨h1, h2, h3, h4⟩

lemma Inv_evaluate {s : Session} (hs : Inv s) (now : String) (gw : GatewayResult) :
    Inv (evaluate_interview s now gw).1 := by
  obtain ⟨h1, h2, h3, h4⟩ := hs
  by_cases ha : s.status = Status.awaiting_feedback
  · by_cases he : s.questions = []
    · rw [evaluate_no_answers ha he now gw]; exact ⟨h1, h2, h3, h4⟩
    · cases gw with
      | requestFailed => rw [evaluate_requestFailed ha he now]; exact ⟨h1, h2, h3, h4⟩
      | unparseable => rw [evaluate_unparseable ha he now]; exact ⟨h1, h2, h3, h4⟩
      | parsed v =>
        rw [evaluate_parsed_fst ha he now v]
        refine ⟨h1, h2, ?_, ?_⟩
        · intro hcontra; simp at hcontra
        · intro _; rfl
  · rw [evaluate_not_awaiting ha now gw]; exact ⟨h1, h2, h3, h4⟩

lemma Inv_reachable {s : Session} (h : Reachable s) : Inv s := by
  induction h with
  | start sid name now => exact Inv_start sid name now
  | submit qid tr now _ ih => exact Inv_submit ih qid tr now
  | evaluate now gw _ ih => exact Inv_evaluate ih now gw

lemma submit_ok_shape {s : Session} {qid : Int} {tr : Option String} {now : String}
    (hok : exceptOk (submit_answer s qid tr now).2 = true) :
    (submit_answer s qid tr now).1.questions.length = s.questions.length + 1
    ∧ (submit_answer s qid tr now).1.current_question = s.current_question + 1 := by
  by_cases hp : s.status = Status.in_progress
  · by_cases hr : qid < 1 ∨ qid > (QUESTIONS.length : Int)
    · rw [submit_out_of_range hp hr tr now] at hok
      exact absurd hok (by simp [exceptOk])
    · by_cases hm : qid = (s.current_question : Int) + 1
      · cases tr with
        | none =>
          rw [submit_no_transcript hp hr hm now] at hok
          exact absurd hok (by simp [exceptOk])
        | some t =>
          by_cases hlen : QUESTIONS.length ≤ s.current_question + 1
          · rw [submit_success_last hp hr hm t now hlen]
            exact ⟨by simp, rfl⟩
          · rw [submit_success_mid hp hr hm t now hlen]
            exact ⟨by simp, rfl⟩
      · rw [submit_mismatch hp hr hm tr now] at hok
        exact absurd hok (by simp [exceptOk])
  · rw [submit_not_in_progress hp qid tr now] at hok
    exact absurd hok (by simp [exceptOk])

lemma submit_fst_evaluation (s : Session) (qid : Int) (tr : Option String)
    (now : String) : (submit_answer s qid tr now).1.evaluation = s.evaluation := by
  by_cases hp : s.status = Status.in_progress
  · by_cases hr : qid < 1 ∨ qid > (QUESTIONS.length : Int)
    · rw [submit_out_of_range hp hr tr now]
    · by_cases hm : qid = (s.current_question : Int) + 1
      · cases tr with
        | none => rw [submit_no_transcript hp hr hm now]
        | some t =>
          by_cases hlen : QUESTIONS.length ≤ s.current_question + 1
          · rw [submit_success_last hp hr hm t now hlen]
          · rw [submit_success_mid hp hr hm t now hlen]
      · rw [submit_mismatch hp hr hm tr now]
  · rw [submit_not_in_progress hp qid tr now]

lemma submit_cursor_mono (s : Session) (qid : Int) (tr : Option String)
    (now : String) :
    s.current_question ≤ (submit_answer s qid tr now).1.current_question := by
  by_cases hp : s.status = Status.in_progress
  · by_cases hr : qid < 1 ∨ qid > (QUESTIONS.length : Int)
    · rw [submit_out_of_range hp hr tr now]
    · by_cases hm : qid = (s.current_question : Int) + 1
      · cases tr with
        | none => rw [submit_no_transcript hp hr hm now]
        | some t =>
          by_cases hlen : QUESTIONS.length ≤ s.current_question + 1
          · rw [submit_success_last hp hr hm t now hlen]
            exact Nat.le_succ _
          · rw [submit_success_mid hp hr hm t now hlen]
            exact Nat.le_succ _
      · rw [submit_mismatch hp hr hm tr now]
  · rw [submit_not_in_progress hp qid tr now]

lemma evaluate_fst_cursor (s : Session) (now : String) (gw : GatewayResult) :
    (evaluate_interview s now gw).1.current_question = s.current_question := by
  by_cases ha : s.status = Status.awaiting_feedback
  · by_cases he : s.questions = []
    · rw [evaluate_no_answers ha he now gw]
    · cases gw with
      | requestFailed => rw [evaluate_requestFailed ha he now]
      | unparseable => rw [evaluate_unparseable ha he now]
      | parsed e => rw [evaluate_parsed_fst ha he now e]
  · rw [evaluate_not_awaiting ha now gw]

/-- A fresh session, as created by the start endpoint. -/
def sessionStart : Session := (start_interview "sid-1" "Jane" "t0").1

/-- The session after answering questions 1 and 2 in order. -/
def sessionTwo : Session :=
  (submit_answer (submit_answer sessionStart 1 (some ("answer one")) "t1").1
    2 (some ("answer two")) "t1").1

/-- The session after answering all five questions in order; its status is
awaiting_feedback. -/
def sessionAwaiting : Session :=
  (submit_answer (submit_answer (submit_answer sessionTwo
    3 (some ("answer three")) "t1").1
    4 (some ("answer four")) "t1").1
    5 (some ("answer five")) "t1").1

/-- Per-question feedback entries whose scores all equal 1. -/
def fb5 : List FeedbackItem :=
  [ ⟨1, 1, "fb one"⟩, ⟨2, 1, "fb two"⟩, ⟨3, 1, "fb three"⟩,
    ⟨4, 1, "fb four"⟩, ⟨5, 1, "fb five"⟩ ]

/-- A parsed gateway response carrying every key the code reads, with an
overall_score of 7, outside the 0-5 scale, and per-question scores whose
mean is 1. -/
def fullEval : EvalJson :=
  { summary := some ("solid performance"),
    overall_score := some 7,
    strengths := some ["a", "b", "c"],
    weaknesses := some ["d"],
    recommendation := some ("Hire"),
    detailed_feedback := some fb5 }

/-- A parsed gateway response with none of the keys the code reads: what
json.loads produces on an empty JSON object. -/
def emptyEval : EvalJson := ⟨none, none, none, none, none, none⟩

/-- The session after a successful evaluation of sessionAwaiting. -/
def sessionCompleted : Session :=
  (evaluate_interview sessionAwaiting "t2"
    (GatewayResult.parsed (some (StoredEval.obj fullEval)))).1

/-- A session value with status awaiting_feedback and no recorded answers.
The service itself never produces such a value, but the evaluate endpoint
accepts any session the store returns. -/
def sessionEmptyAwaiting : Session :=
  { session_id := "sid-2",
    candidate_name := "Jane",
    started_at := "t0",
    finished_at := none,
    current_question := 0,
    questions := [],
    evaluation := none,
    status := Status.awaiting_feedback }

lemma reach_sessionStart : Reachable sessionStart :=
  Reachable.start "sid-1" "Jane" "t0"

lemma reach_sessionAwaiting : Reachable sessionAwaiting :=
  Reachable.submit 5 (some ("answer five")) "t1"
    (Reachable.submit 4 (some ("answer four")) "t1"
      (Reachable.submit 3 (some ("answer three")) "t1"
        (Reachable.submit 2 (some ("answer two")) "t1"
          (Reachable.submit 1 (some ("answer one")) "t1" reach_sessionStart))))

lemma reach_sessionCompleted : Reachable sessionCompleted :=
  Reachable.evaluate "t2" (GatewayResult.parsed (some (StoredEval.obj fullEval)))
    reach_sessionAwaiting

/-- C1: on every reachable session, a successful submit_answer call appends
exactly one answer record and increments the cursor by one, so the length
of the recorded answers list equals the cursor afterwards; at session
creation the list is empty and the cursor is 0. -/
theorem submit_keeps_answers_length_eq_cursor (s : Session) (h : Reachable s)
    (qid : Int) (tr : Option String) (now : String)
    (hok : exceptOk (submit_answer s qid tr now).2 = true) :
    (submit_answer s qid tr now).1.questions.length
        = (submit_answer s qid tr now).1.current_question
    ∧ (submit_answer s qid tr now).1.questions.length = s.questions.length + 1
    ∧ (submit_answer s qid tr now).1.current_question = s.current_question + 1
    ∧ (∀ sid name t0 : String, ((start_interview sid name t0).1.questions = []
        ∧ (start_interview sid name t0).1.current_question = 0)) :=
  ⟨(Inv_submit (Inv_reachable h) qid tr now).1,
   (submit_ok_shape hok).1, (submit_ok_shape hok).2,
   fun _ _ _ => ⟨rfl, rfl⟩⟩

theorem submit_keeps_answers_length_eq_cursor_witness :
    ((submit_answer sessionStart 1 (some ("answer one")) "t1").1.questions.length
        = (submit_answer sessionStart 1 (some ("answer one")) "t1").1.current_question)
    ∧ (start_interview "sid-1" "Jane" "t0").1.questions = [] :=
  ⟨(submit_keeps_answers_length_eq_cursor sessionStart reach_sessionStart
      1 (some ("answer one")) "t1" rfl).1,
   ((submit_keeps_answers_length_eq_cursor sessionStart reach_sessionStart
      1 (some ("answer one")) "t1" rfl).2.2.2 "sid-1" "Jane" "t0").1⟩

/-- C2 counterexample: on a fresh in_progress session (cursor 0), submitting
question_id 6 — which is not the question at the cursor — fails with the
"Invalid question ID" error of src/backend/main.py line 389, not with the
"Question ID mismatch" error of line 393 that realises the design's
SequenceMismatchError, so not every wrong question_id yields
SequenceMismatchError. -/
theorem out_of_range_submit_not_mismatch_error :
    (submit_answer sessionStart 6 (some ("answer")) "t1").2
        = Except.error ApiError.invalidQuestionId
    ∧ ApiError.invalidQuestionId ≠ ApiError.questionIdMismatch :=
  ⟨rfl, by decide⟩

/-- C2 (amended): on an in_progress session, a submitted question_id other
than current_question + 1 always fails and leaves the session unchanged;
the error is the "Question ID mismatch" one (SequenceMismatchError) when
the id is within the bank range 1..len(QUESTIONS), and the "Invalid
question ID" one when it is outside that range. -/
theorem mismatched_submit_rejected_unchanged (s : Session) (qid : Int)
    (tr : Option String) (now : String) (h : s.status = Status.in_progress)
    (hne : qid ≠ (s.current_question : Int) + 1) :
    (submit_answer s qid tr now).1 = s
    ∧ (1 ≤ qid ∧ qid ≤ (QUESTIONS.length : Int) →
        (submit_answer s qid tr now).2 = Except.error ApiError.questionIdMismatch)
    ∧ (qid < 1 ∨ qid > (QUESTIONS.length : Int) →
        (submit_answer s qid tr now).2 = Except.error ApiError.invalidQuestionId) := by
  by_cases hr : qid < 1 ∨ qid > (QUESTIONS.length : Int)
  · rw [submit_out_of_range h hr tr now]
    exact ⟨rfl, fun hin => by omega, fun _ => rfl⟩
  · rw [submit_mismatch h hr hne tr now]
    exact ⟨rfl, fun _ => rfl, fun hout => absurd hout hr⟩

theorem mismatched_submit_rejected_unchanged_witness :
    (submit_answer sessionStart 2 (some ("answer")) "t1").1 = sessionStart
    ∧ (1 ≤ (2 : Int) ∧ (2 : Int) ≤ (QUESTIONS.length : Int) →
        (submit_answer sessionStart 2 (some ("answer")) "t1").2
          = Except.error ApiError.questionIdMismatch)
    ∧ ((2 : Int) < 1 ∨ (2 : Int) > (QUESTIONS.length : Int) →
        (submit_answer sessionStart 2 (some ("answer")) "t1").2
          = Except.error ApiError.invalidQuestionId) :=
  mismatched_submit_rejected_unchanged sessionStart 2 (some ("answer")) "t1"
    rfl (by decide)

/-- C3 counterexample: when the scoring gateway returns text that parses as
JSON but lacks the required report keys (here: the empty JSON object), the
evaluate endpoint does surface the evaluation failure, but the session has
already been marked completed with the malformed object stored as its
evaluation (src/backend/main.py lines 539-546 run before the key reads of
lines 548-555), contradicting the part of the property that says the
status is never marked completed and no report is stored. -/
theorem malformed_parsed_response_marks_completed :
    (evaluate_interview sessionAwaiting "t2"
        (GatewayResult.parsed (some (StoredEval.obj emptyEval)))).2
        = Except.error ApiError.evaluationFailed
    ∧ (evaluate_interview sessionAwaiting "t2"
        (GatewayResult.parsed (some (StoredEval.obj emptyEval)))).1.status
        = Status.completed
    ∧ (evaluate_interview sessionAwaiting "t2"
        (GatewayResult.parsed (some (StoredEval.obj emptyEval)))).1.evaluation
        = some (StoredEval.obj emptyEval) :=
  ⟨rfl, rfl, rfl⟩

/-- C3 (amended): if the scoring gateway call fails outright or returns
output that json.loads rejects, the evaluate endpoint surfaces the
evaluation failure and leaves the session unchanged (status still
awaiting_feedback, no report stored); if the output parses as JSON but is
not an object carrying all six required keys — an object with a missing
key, a non-object value, or the JSON null — the failure is still surfaced
to the caller, but only after the session has been marked completed with
the parsed value stored verbatim as its report. -/
theorem gateway_failure_behavior (s : Session) (now : String)
    (h1 : s.status = Status.awaiting_feedback) (h2 : s.questions ≠ []) :
    evaluate_interview s now GatewayResult.requestFailed
        = (s, Except.error ApiError.evaluationFailed)
    ∧ evaluate_interview s now GatewayResult.unparseable
        = (s, Except.error ApiError.evaluationFailed)
    ∧ (∀ v : Option StoredEval, completeParsed v = false →
        ((evaluate_interview s now (GatewayResult.parsed v)).2
            = Except.error ApiError.evaluationFailed
        ∧ (evaluate_interview s now (GatewayResult.parsed v)).1.status = Status.completed
        ∧ (evaluate_interview s now (GatewayResult.parsed v)).1.evaluation = v)) :=
  ⟨evaluate_requestFailed h1 h2 now, evaluate_unparseable h1 h2 now,
   fun v hc => ⟨evaluate_parsed_incomplete h1 h2 now hc,
     by rw [evaluate_parsed_fst h1 h2 now v],
     by rw [evaluate_parsed_fst h1 h2 now v]⟩⟩

theorem gateway_failure_behavior_witness :
    evaluate_interview sessionAwaiting "t2" GatewayResult.requestFailed
        = (sessionAwaiting, Except.error ApiError.evaluationFailed)
    ∧ evaluate_interview sessionAwaiting "t2" GatewayResult.unparseable
        = (sessionAwaiting, Except.error ApiError.evaluationFailed)
    ∧ (evaluate_interview sessionAwaiting "t2"
        (GatewayResult.parsed (some (StoredEval.obj emptyEval)))).2
        = Except.error ApiError.evaluationFailed :=
  ⟨(gateway_failure_behavior sessionAwaiting "t2" rfl (by decide)).1,
   (gateway_failure_behavior sessionAwaiting "t2" rfl (by decide)).2.1,
   ((gateway_failure_behavior sessionAwaiting "t2" rfl (by decide)).2.2
      (some (StoredEval.obj emptyEval)) rfl).1⟩

/-- C4 counterexample: a gateway response whose per-question scores all
equal 1 (mean 1) but whose overall_score key says 7 is reported verbatim:
the endpoint returns overall_score 7, which is neither the mean of the
per-question scores nor within the 0-5 scale, so no clamping or
mean-validation of the overall score takes place. -/
theorem overall_score_unclamped_counterexample :
    (evaluate_interview sessionAwaiting "t2"
        (GatewayResult.parsed (some (StoredEval.obj fullEval)))).2
        = Except.ok { summary := "solid performance", overall_score := 7,
                      strengths := ["a", "b", "c"], weaknesses := ["d"],
                      recommendation := "Hire", detailed_feedback := fb5 }
    ∧ ¬ ((7 : Rat) ≤ 5)
    ∧ ((fb5.map FeedbackItem.score).sum / (fb5.length : Rat)) = 1
    ∧ (7 : Rat) ≠ 1 := by
  refine ⟨rfl, by norm_num, by norm_num [fb5], by norm_num⟩

/-- C4 (amended): the evaluate endpoint reports exactly the overall_score
value supplied by the gateway, with no clamping against the 0-5 scale and
no comparison with the per-question scores; when the gateway omits the
overall_score key, no mean of the recorded per-question scores is computed
as a substitute — the call fails with the evaluation failure instead. -/
theorem overall_score_passthrough (s : Session) (now : String)
    (h1 : s.status = Status.awaiting_feedback) (h2 : s.questions ≠ []) :
    (∀ (su : String) (os : Rat) (st wk : List String) (rc : String)
        (df : List FeedbackItem),
      (evaluate_interview s now (GatewayResult.parsed (some (StoredEval.obj
          ⟨some su, some os, some st, some wk, some rc, some df⟩)))).2
        = Except.ok ⟨su, os, st, wk, rc, df⟩)
    ∧ (∀ e : EvalJson, e.overall_score = none →
      (evaluate_interview s now (GatewayResult.parsed (some (StoredEval.obj e)))).2
        = Except.error ApiError.evaluationFailed) :=
  ⟨fun su os st wk rc df => evaluate_parsed_complete h1 h2 now su os st wk rc df,
   fun _ hnone => evaluate_parsed_incomplete h1 h2 now
     (by simp [completeParsed, completeEval, hnone])⟩

theorem overall_score_passthrough_witness :
    (evaluate_interview sessionAwaiting "t2" (GatewayResult.parsed (some (StoredEval.obj
        ⟨some ("good"), some 3, some ["s1"], some ["w1"], some ("Hire"), some fb5⟩)))).2
      = Except.ok ⟨"good", 3, ["s1"], ["w1"], "Hire", fb5⟩
    ∧ (evaluate_interview sessionAwaiting "t2"
        (GatewayResult.parsed (some (StoredEval.obj emptyEval)))).2
      = Except.error ApiError.evaluationFailed :=
  ⟨(overall_score_passthrough sessionAwaiting "t2" rfl (by decide)).1
      "good" 3 ["s1"] ["w1"] "Hire" fb5,
   (overall_score_passthrough sessionAwaiting "t2" rfl (by decide)).2 emptyEval rfl⟩

/-- C5 counterexample: when the scoring gateway returns the text null,
json.loads succeeds with Python None, and src/backend/main.py lines
540-546 store that None as session["evaluation"] while setting the status
to "completed" and saving, before the subscription at line 549 raises the
TypeError that becomes the 500 response.  The resulting session — reached
by the service itself from a fresh start through five in-order answers —
is completed with a null final report, refuting the claimed "non-null if
and only if completed". -/
theorem parsed_null_completed_with_null_report :
    (evaluate_interview sessionAwaiting "t2" (GatewayResult.parsed none)).1.status
        = Status.completed
    ∧ (evaluate_interview sessionAwaiting "t2" (GatewayResult.parsed none)).1.evaluation
        = none
    ∧ (evaluate_interview sessionAwaiting "t2" (GatewayResult.parsed none)).2
        = Except.error ApiError.evaluationFailed
    ∧ Reachable (evaluate_interview sessionAwaiting "t2" (GatewayResult.parsed none)).1 :=
  ⟨rfl, rfl, rfl,
   Reachable.evaluate "t2" (GatewayResult.parsed none) reach_sessionAwaiting⟩

/-- C5 (amended): on every reachable session, a non-null stored evaluation
implies the status is completed — but not conversely, since a gateway
response parsing to JSON null commits a completed session whose report is
null.  The report is null at creation, submit_answer never changes it, and
once a session is completed the evaluate endpoint fails without touching
the session again, so the report field is written in exactly one step, the
same step that sets the completed status (where it receives the parsed
gateway value, null included). -/
theorem final_report_implies_completed (s : Session) (h : Reachable s) :
    (s.evaluation ≠ none → s.status = Status.completed)
    ∧ (∀ (qid : Int) (tr : Option String) (now : String),
        (submit_answer s qid tr now).1.evaluation = s.evaluation)
    ∧ (∀ (sid name t0 : String), (start_interview sid name t0).1.evaluation = none)
    ∧ (s.status = Status.completed → ∀ (now : String) (gw : GatewayResult),
        evaluate_interview s now gw = (s, Except.error ApiError.notReadyForEvaluation)) :=
  ⟨(Inv_reachable h).2.2.2,
   fun qid tr now => submit_fst_evaluation s qid tr now,
   fun _ _ _ => rfl,
   fun hc now gw =>
     evaluate_not_awaiting (fun heq => by rw [hc] at heq; cases heq) now gw⟩

theorem final_report_implies_completed_witness :
    (sessionCompleted.evaluation ≠ none → sessionCompleted.status = Status.completed)
    ∧ (submit_answer sessionCompleted 1 (some ("late answer")) "t3").1.evaluation
        = sessionCompleted.evaluation :=
  ⟨(final_report_implies_completed sessionCompleted reach_sessionCompleted).1,
   (final_report_implies_completed sessionCompleted reach_sessionCompleted).2.1
      1 (some ("late answer")) "t3"⟩

/-- C6: on every reachable session the cursor never exceeds the bank
length; once it reaches the bank length the status has left in_progress,
so no further submission is accepted; and every operation leaves the
cursor unchanged or increments it (monotone non-decreasing): submit_answer
never decreases it and evaluate_interview never changes it (the status
endpoint is the pure read get_interview_status and mutates nothing). -/
theorem cursor_monotone_bounded (s : Session) (h : Reachable s) :
    s.current_question ≤ QUESTIONS.length
    ∧ (s.current_question = QUESTIONS.length → s.status ≠ Status.in_progress)
    ∧ (∀ (qid : Int) (tr : Option String) (now : String),
        s.current_question ≤ (submit_answer s qid tr now).1.current_question)
    ∧ (∀ (now : String) (gw : GatewayResult),
        (evaluate_interview s now gw).1.current_question = s.current_question) :=
  ⟨(Inv_reachable h).2.1,
   fun hc hs => by
     have := (Inv_reachable h).2.2.1 hs
     omega,
   fun qid tr now => submit_cursor_mono s qid tr now,
   fun now gw => evaluate_fst_cursor s now gw⟩

theorem cursor_monotone_bounded_witness :
    sessionAwaiting.current_question ≤ QUESTIONS.length
    ∧ sessionAwaiting.current_question
        ≤ (submit_answer sessionAwaiting 1 (some ("again")) "t3").1.current_question :=
  ⟨(cursor_monotone_bounded sessionAwaiting reach_sessionAwaiting).1,
   (cursor_monotone_bounded sessionAwaiting reach_sessionAwaiting).2.2.1
      1 (some ("again")) "t3"⟩

/-- C7: on a completed session, a further call to the evaluate endpoint
fails with the "Interview not ready for evaluation" error (the design's
InvalidStateError) and returns the session unchanged, and the outcome is
the same for every possible gateway result, so the scoring gateway is
never consulted again and the stored report is never recomputed. -/
theorem completed_finish_always_invalid_state (s : Session)
    (h : s.status = Status.completed) (now : String) (gw : GatewayResult) :
    evaluate_interview s now gw = (s, Except.error ApiError.notReadyForEvaluation) :=
  evaluate_not_awaiting (fun heq => by rw [h] at heq; cases heq) now gw

theorem completed_finish_always_invalid_state_witness :
    evaluate_interview sessionCompleted "t3" GatewayResult.requestFailed
      = (sessionCompleted, Except.error ApiError.notReadyForEvaluation) :=
  completed_finish_always_invalid_state sessionCompleted rfl "t3"
    GatewayResult.requestFailed

/-- C8 counterexample: on a fresh session with zero recorded answers, the
evaluate endpoint fails with the "Interview not ready for evaluation"
error of src/backend/main.py line 461, not with the "No answers to
evaluate" error of line 464 that realises the design's
EmptyInterviewError: the status check runs first, and a session with zero
answers can never have the awaiting_feedback status the check demands. -/
theorem zero_answers_fresh_session_counterexample :
    evaluate_interview sessionStart "t1" GatewayResult.requestFailed
      = (sessionStart, Except.error ApiError.notReadyForEvaluation)
    ∧ sessionStart.questions = []
    ∧ ApiError.notReadyForEvaluation ≠ ApiError.noAnswersToEvaluate :=
  ⟨rfl, rfl, by decide⟩

/-- C8 (amended): the evaluate endpoint rejects a session with zero
recorded answers with the "No answers to evaluate" error
(EmptyInterviewError) only when the session status is awaiting_feedback;
with zero answers in any other status it fails earlier, with the
"Interview not ready for evaluation" error, because the status check
precedes the emptiness check. -/
theorem zero_answers_error_depends_on_status (s : Session) (now : String)
    (gw : GatewayResult) (he : s.questions = []) :
    (s.status = Status.awaiting_feedback →
        evaluate_interview s now gw = (s, Except.error ApiError.noAnswersToEvaluate))
    ∧ (s.status ≠ Status.awaiting_feedback →
        evaluate_interview s now gw = (s, Except.error ApiError.notReadyForEvaluation)) :=
  ⟨fun ha => evaluate_no_answers ha he now gw,
   fun ha => evaluate_not_awaiting ha now gw⟩

theorem zero_answers_error_depends_on_status_witness :
    evaluate_interview sessionEmptyAwaiting "t1" GatewayResult.requestFailed
      = (sessionEmptyAwaiting, Except.error ApiError.noAnswersToEvaluate) :=
  (zero_answers_error_depends_on_status sessionEmptyAwaiting "t1"
      GatewayResult.requestFailed rfl).1 rfl

/-- C9 counterexample: starting an interview with the empty candidate name
succeeds and creates an in_progress session whose candidate_name is the
empty string: there is no validation configuration, no ValidationError and
no placeholder substitution in start_interview or in the pydantic request
model (src/backend/main.py lines 141-142, 305-324). -/
theorem empty_candidate_name_accepted :
    (start_interview "sid-3" "" "t0").1.candidate_name = ""
    ∧ (start_interview "sid-3" "" "t0").1.status = Status.in_progress :=
  ⟨rfl, rfl⟩

/-- C9 (amended): start_interview accepts every candidate_name string,
the empty string included, stores it verbatim in the created session and
always creates the session with status in_progress; no rejection is
configurable and no placeholder name is ever substituted. -/
theorem start_stores_name_verbatim (sid name now : String) :
    (start_interview sid name now).1.candidate_name = name
    ∧ (start_interview sid name now).1.status = Status.in_progress :=
  ⟨rfl, rfl⟩

/-- C10: every question of the bank has an id equal to its 1-based
position (ids 1 through 5, in order), so the acceptance test
question_id = current_question + 1 of submit_answer coincides exactly with
matching the id of the question stored at the cursor; the bank itself is a
constant that no operation writes to. -/
theorem bank_ids_equal_positions :
    (∀ i : Fin QUESTIONS.length, (QUESTIONS.get i).id = (i.val : Int) + 1)
    ∧ (∀ (s : Session) (qid : Int), s.current_question < QUESTIONS.length →
        (qid = (s.current_question : Int) + 1
          ↔ (QUESTIONS.getD s.current_question ⟨0, "", "", ""⟩).id = qid)) := by
  refine ⟨by decide, ?_⟩
  intro s qid hlt
  have hid : (QUESTIONS.getD s.current_question ⟨0, "", "", ""⟩).id
      = (s.current_question : Int) + 1 := by
    rw [QUESTIONS_length] at hlt
    have hcases : s.current_question = 0 ∨ s.current_question = 1
        ∨ s.current_question = 2 ∨ s.current_question = 3
        ∨ s.current_question = 4 := by omega
    rcases hcases with hc | hc | hc | hc | hc <;> rw [hc] <;> rfl
  constructor
  · intro hq; rw [hid, hq]
  · intro hq; rw [← hq, hid]

theorem bank_ids_equal_positions_witness :
    (QUESTIONS.get ⟨0, by decide⟩).id = ((0 : Nat) : Int) + 1
    ∧ ((1 : Int) = (sessionStart.current_question : Int) + 1
        ↔ (QUESTIONS.getD sessionStart.current_question ⟨0, "", "", ""⟩).id = 1) :=
  ⟨bank_ids_equal_positions.1 ⟨0, by decide⟩,
   bank_ids_equal_positions.2 sessionStart 1 (by decide)⟩

end ExcelInterview
